import Mathlib

/-!
Verification of the FrameWeavers frame-extraction core
(`src/FrameWeavers/Resources/async_frame_extractor.py` and
`src/FrameWeavers/Resources/basic_frame_extractor_optimized.py`).

The Python code is shallowly embedded: Python floats are modelled by exact
rationals, Python `int(x)` (truncation toward zero) by `pyInt`, Python integer
floor division `//` by `Int.fdiv`, a raised exception by an `Option` result,
and the file system by the list of existing file paths.  OpenCV pixel
primitives (grayscale conversion, `absdiff`, histograms, Laplacian) are
external numeric collaborators: functions that consume their scalar outputs
(mean pixel difference, chi-square histogram distance, sharpness, brightness,
contrast) take those scalars as arguments.
-/

namespace FrameWeavers

/-- Python `int(x)`: truncation of a real value toward zero. -/
def pyInt (q : ℚ) : ℤ := if 0 ≤ q then ⌊q⌋ else ⌈q⌉

/-!
## Sampling planner (`AsyncFrameExtractor.calculate_optimal_frame_count`,
async_frame_extractor.py lines 510-566)

`select_interval_strategy` is the duration if-chain (lines 513-539),
`fps_factor` the frame-rate correction (lines 544-550).  The constants are
the `AsyncFrameExtractorConfig` values (INTERVAL_*, DURATION_*, FPS_*,
MIN_FRAME_COUNT = 5, MAX_FRAME_PERCENTAGE = 0.5); the strategy labels
transliterate the Chinese strings of the source.  Python raises
`ZeroDivisionError` in `total_frames // optimal_frames` exactly when
`optimal_frames = 0`; the embedding returns `none` there.
-/

namespace Async

/-- Result dictionary of `calculate_optimal_frame_count`. -/
structure CalcResult where
  optimal_frames : ℤ
  frame_interval : ℤ
  real_time_interval : ℚ
  strategy : String
deriving DecidableEq

/-- Duration buckets selecting the base sampling interval and strategy label. -/
def select_interval_strategy (duration : ℚ) : ℚ × String :=
  if duration ≤ 3 then (0.2, "ultra_short_dense")
  else if duration ≤ 10 then (0.5, "short_dense")
  else if duration ≤ 30 then (0.8, "medium_short_dense")
  else if duration ≤ 120 then (1, "medium_standard")
  else if duration ≤ 300 then (1.5, "long_dense")
  else if duration ≤ 600 then (2, "very_long")
  else if duration ≤ 1800 then (2.5, "thirty_minute")
  else if duration ≤ 3600 then (3, "one_hour")
  else (4, "super_long")

/-- Frame-rate correction factor (lines 544-550). -/
def fps_factor (fps : ℚ) : ℚ :=
  if fps < 15 then 0.8
  else if fps > 60 then 1.3
  else if fps > 30 then 1.15
  else 1

/-- `AsyncFrameExtractor.calculate_optimal_frame_count` (lines 510-566). -/
def calculate_optimal_frame_count (duration fps : ℚ) (total_frames : ℤ) :
    Option CalcResult :=
  let is := select_interval_strategy duration
  let optimal₁ : ℤ := max 5 (pyInt (duration / is.1))
  let optimal₂ : ℤ := pyInt ((optimal₁ : ℚ) * fps_factor fps)
  let max_allowed : ℤ := min total_frames (pyInt ((total_frames : ℚ) * 0.5))
  let optimal₃ : ℤ := min optimal₂ max_allowed
  if optimal₃ = 0 then none
  else some
    { optimal_frames := optimal₃
      frame_interval := max 1 (Int.fdiv total_frames optimal₃)
      real_time_interval := if 0 < optimal₃ then duration / (optimal₃ : ℚ) else is.1
      strategy := is.2 }

end Async

/-!
## Frame quality scoring (`calculate_frame_quality`,
async_frame_extractor.py lines 568-592)

The OpenCV pixel statistics of the decoded frame — Laplacian variance
(sharpness), mean intensity (brightness), intensity standard deviation
(contrast) — are external numeric primitives; the embedded function takes
their values and performs the weighting of lines 581-585 with
QUALITY_WEIGHT_SHARPNESS = 0.5, QUALITY_WEIGHT_CONTRAST = 0.3,
QUALITY_WEIGHT_BRIGHTNESS = 0.2.
-/

/-- The metrics dictionary returned by `calculate_frame_quality`. -/
structure QualityMetrics where
  sharpness : ℚ
  brightness : ℚ
  contrast : ℚ
  quality_score : ℚ
deriving DecidableEq

namespace Async

/-- `AsyncFrameExtractor.calculate_frame_quality` (lines 568-592), given the
pixel statistics of the frame. -/
def calculate_frame_quality (sharpness brightness contrast : ℚ) : QualityMetrics :=
  { sharpness := sharpness
    brightness := brightness
    contrast := contrast
    quality_score :=
      sharpness * 0.5 + contrast * 0.3 + min (brightness / 128) 1 * 0.2 }

end Async

/-!
## Scene-change detection and retention
(`detect_scene_change` lines 594-634, `_should_keep_frame` lines 793-814,
threshold tables `AsyncFrameExtractorConfig.SCENE_THRESHOLDS` lines 204-233
and `INTENSITY_THRESHOLDS` lines 236-241)

Grayscale conversion, resize, `absdiff` mean and chi-square histogram
distance are external pixel primitives; the embedded functions take the two
scalar differences they produce (pixel_diff, hist_diff).
-/

/-- One row of `SCENE_THRESHOLDS`. -/
structure SceneThresholds where
  pixel_threshold : ℚ
  histogram_threshold : ℚ
  structural_threshold : ℚ
  edge_threshold : ℚ
  color_threshold : ℚ
deriving DecidableEq

/-- The result dictionary of `detect_scene_change`. -/
structure SceneChangeResult where
  is_scene_change : Bool
  change_intensity : ℚ
  pixel_difference : ℚ
  histogram_difference : ℚ
deriving DecidableEq

namespace Async

/-- `SCENE_THRESHOLDS.get(sensitivity, SCENE_THRESHOLDS["high"])`
(lines 204-233 and the lookup of lines 613-614): the four tier rows, any
other key defaulting to the high tier. -/
def scene_thresholds (sensitivity : String) : SceneThresholds :=
  if sensitivity = "low" then
    { pixel_threshold := 40, histogram_threshold := 1000
      structural_threshold := 15, edge_threshold := 25, color_threshold := 800 }
  else if sensitivity = "medium" then
    { pixel_threshold := 25, histogram_threshold := 500
      structural_threshold := 10, edge_threshold := 15, color_threshold := 400 }
  else if sensitivity = "high" then
    { pixel_threshold := 15, histogram_threshold := 200
      structural_threshold := 8, edge_threshold := 10, color_threshold := 200 }
  else if sensitivity = "ultra" then
    { pixel_threshold := 10, histogram_threshold := 100
      structural_threshold := 5, edge_threshold := 8, color_threshold := 100 }
  else
    { pixel_threshold := 15, histogram_threshold := 200
      structural_threshold := 8, edge_threshold := 10, color_threshold := 200 }

/-- `INTENSITY_THRESHOLDS.get(scene_sensitivity, 40)` (lines 236-241 and
810): the four tier values, any other key defaulting to 40. -/
def intensity_thresholds (sensitivity : String) : ℚ :=
  if sensitivity = "low" then 15
  else if sensitivity = "medium" then 25
  else if sensitivity = "high" then 40
  else if sensitivity = "ultra" then 60
  else 40

/-- `AsyncFrameExtractor.detect_scene_change` (lines 594-634), given the mean
absolute pixel difference and the chi-square histogram distance of the two
(grayscale, shape-matched) frames. -/
def detect_scene_change (pixel_diff hist_diff : ℚ) (sensitivity : String) :
    SceneChangeResult :=
  let thresholds := scene_thresholds sensitivity
  let pixel_change : Bool := pixel_diff > thresholds.pixel_threshold
  let hist_change : Bool := hist_diff > thresholds.histogram_threshold
  { is_scene_change := pixel_change || hist_change
    change_intensity :=
      pixel_diff / thresholds.pixel_threshold * 0.6 +
      hist_diff / thresholds.histogram_threshold * 0.4
    pixel_difference := pixel_diff
    histogram_difference := hist_diff }

/-- `AsyncFrameExtractor._should_keep_frame` (lines 793-814).  `has_previous`
models `previous_frame is None` being false; `sharpness` is the candidate's
quality metric; pixel_diff and hist_diff are the scalar outputs of the pixel
primitives on (previous_frame, frame). -/
def should_keep_frame (has_previous : Bool) (sharpness : ℚ)
    (pixel_diff hist_diff : ℚ) (sharpness_threshold similarity_threshold : ℚ)
    (scene_sensitivity : String) : Bool :=
  if !has_previous then true
  else if sharpness < sharpness_threshold then false
  else
    let scene_result := detect_scene_change pixel_diff hist_diff scene_sensitivity
    if scene_result.is_scene_change then
      scene_result.change_intensity ≥ intensity_thresholds scene_sensitivity
    else
      scene_result.pixel_difference ≥ similarity_threshold

end Async

/-!
## Batch orchestration: frame records, global cap, re-indexing
(`AsyncFrameExtractor.process_multiple_files_async` lines 864-998,
`_rename_frames_async` lines 1000-1022; the cull and rename code of
`OptimizedFrameExtractor.process_mixed_inputs` lines 631-662 is
line-for-line the same)

A `FrameRecord` is one `frame_info` dictionary.  The file system is the list
of existing paths; `os.remove` is modelled by filtering a path out and
`os.rename old new` by removing `old` and prepending `new`.  Python's stable
`list.sort(key=..., reverse=True)` is modelled by Mathlib's stable
`List.insertionSort` with the descending-quality relation.
-/

/-- One `frame_info` dictionary appended to `all_frame_paths`. -/
structure FrameRecord where
  path : String
  filename : String
  frame_number : ℤ
  timestamp : ℚ
  extracted_index : ℤ
  quality : QualityMetrics
  source_type : String
  source_file : String
deriving DecidableEq

namespace Orchestrator

/-- Descending order on quality_score used by
`all_frame_paths.sort(key=lambda x: quality_score, reverse=True)`. -/
def qualityGE (a b : FrameRecord) : Prop :=
  b.quality.quality_score ≤ a.quality.quality_score

instance : DecidableRel qualityGE := fun a b =>
  inferInstanceAs (Decidable (_ ≤ _))

/-- The in-place stable descending sort of the cumulative record list. -/
def sortByQualityDesc (frames : List FrameRecord) : List FrameRecord :=
  List.insertionSort qualityGE frames

/-- `os.remove(p)` on the file-system model. -/
def removePath (fs : List String) (p : String) : List String :=
  fs.filter (fun q => q != p)

/-- The global cap enforcement of `process_multiple_files_async`
(lines 962-975): if the retained records exceed max_base_frames, sort by
quality descending, delete the files of the excess tail (best effort,
guarded by existence), truncate.  Returns the new record list and the new
file system. -/
def enforceGlobalCap (frames : List FrameRecord) (max_base_frames : ℕ)
    (fs : List String) : List FrameRecord × List String :=
  if frames.length > max_base_frames then
    let sorted := sortByQualityDesc frames
    let removed := sorted.drop max_base_frames
    (sorted.take max_base_frames,
     removed.foldl (fun acc r => removePath acc r.path) fs)
  else (frames, fs)

/-- Python `"%04d" % i` for a natural number, as used by the f-string
`frame_{i:04d}_...`. -/
def pad4 (i : ℕ) : String :=
  if i < 10 then "000" ++ toString i
  else if i < 100 then "00" ++ toString i
  else if i < 1000 then "0" ++ toString i
  else toString i

/-- Root part of `os.path.splitext` for a plain file name: everything before
the final dot, except that a name whose part before that dot is all dots
(".bashrc", "..") is returned whole. -/
def splitext_root (s : String) : String :=
  let root := ((s.toList.reverse.dropWhile (fun c => c != '.')).drop 1).reverse
  if root.all (fun c => c == '.') then s else String.mk root

/-- The target file name `frame_{i:04d}_{source_type}_{clean_name}.jpg` of
`_rename_frames_async` (lines 1005-1006). -/
def targetName (i : ℕ) (r : FrameRecord) : String :=
  "frame_" ++ pad4 i ++ "_" ++ r.source_type ++ "_" ++ splitext_root r.source_file ++ ".jpg"

/-- `os.path.join(self.output_dir, new_filename)` for a plain relative
directory (posix separator). -/
def targetPath (dir : String) (i : ℕ) (r : FrameRecord) : String :=
  dir ++ "/" ++ targetName i r

/-- One iteration of the `_rename_files` loop (lines 1003-1018): if the
record's current path differs from its target and the file exists, remove a
pre-existing target, rename, and rewrite path/filename/extracted_index;
otherwise leave record and file system untouched. -/
def renameStep (dir : String) (i : ℕ) (r : FrameRecord) (fs : List String) :
    FrameRecord × List String :=
  let new_filename := targetName i r
  let new_path := dir ++ "/" ++ new_filename
  if r.path ≠ new_path ∧ r.path ∈ fs then
    ({ r with path := new_path, filename := new_filename, extracted_index := (i : ℤ) },
     new_path :: removePath (removePath fs new_path) r.path)
  else (r, fs)

/-- `_rename_frames_async` (lines 1000-1022): the enumerate loop starting at
index i₀, threading the file system. -/
def renameFramesAux (dir : String) : ℕ → List FrameRecord → List String →
    List FrameRecord × List String
  | _, [], fs => ([], fs)
  | i, r :: rs, fs =>
    let step := renameStep dir i r fs
    let rest := renameFramesAux dir (i + 1) rs step.2
    (step.1 :: rest.1, rest.2)

/-- The post-processing tail of `process_multiple_files_async`
(lines 962-978): global cap enforcement followed by the renaming pass at
index 0. -/
def finalize_frames (dir : String) (frames : List FrameRecord)
    (max_base_frames : ℕ) (fs : List String) : List FrameRecord × List String :=
  let capped := enforceGlobalCap frames max_base_frames fs
  renameFramesAux dir 0 capped.1 capped.2

/-- The record list the renaming pass produces when every step fires:
position k gets the target path, name and index i₀ + k. -/
def expectedRename (dir : String) : ℕ → List FrameRecord → List FrameRecord
  | _, [] => []
  | i, r :: rs =>
    { r with path := targetPath dir i r, filename := targetName i r,
             extracted_index := (i : ℤ) } :: expectedRename dir (i + 1) rs

end Orchestrator

/-!
## Device performance detection (`DevicePerformanceDetector`,
async_frame_extractor.py lines 33-140)

`get_performance_profile` queries host telemetry inside a try/except; the
telemetry query is modelled as an `Option Telemetry` argument (`none` = the
query raised).  `_calculate_performance_level` and `_get_concurrency_config`
are pure given the detector state (physical core count, total memory).
-/

namespace Detector

/-- Concurrency parameters of one performance tier (dict values of
`_get_concurrency_config`). -/
structure ConcurrencyConfig where
  max_workers : ℕ
  batch_size : ℕ
  memory_buffer_mb : ℕ
  io_workers : ℕ
deriving DecidableEq

/-- The profile dictionary returned by `get_performance_profile` /
`_get_default_profile`. -/
structure PerformanceProfile where
  cpu_cores_physical : ℕ
  cpu_cores_logical : ℕ
  cpu_usage_percent : ℚ
  memory_total_gb : ℚ
  memory_available_gb : ℚ
  memory_usage_percent : ℚ
  disk_free_gb : ℚ
  performance_level : String
  concurrency_config : ConcurrencyConfig
  recommended_batch_size : ℕ
  max_workers : ℕ
deriving DecidableEq

/-- Host telemetry values read inside the try block (psutil cpu_percent,
virtual_memory().available / .percent, disk_usage free), already converted
to the units the profile stores. -/
structure Telemetry where
  cpu_percent : ℚ
  memory_available_gb : ℚ
  memory_percent : ℚ
  disk_free_gb : ℚ
deriving DecidableEq

/-- `DevicePerformanceDetector._calculate_performance_level` (lines 77-89). -/
def calculate_performance_level (cpu_count : ℕ) (memory_gb : ℚ) : String :=
  if cpu_count ≥ 8 ∧ memory_gb ≥ 16 then "high"
  else if cpu_count ≥ 4 ∧ memory_gb ≥ 8 then "medium"
  else if cpu_count ≥ 2 ∧ memory_gb ≥ 4 then "low"
  else "minimal"

/-- `DevicePerformanceDetector._get_concurrency_config` (lines 91-119); the
dict lookup `configs.get(performance_level, configs["low"])` defaults to the
low tier. -/
def get_concurrency_config (cpu_count : ℕ) (performance_level : String) :
    ConcurrencyConfig :=
  if performance_level = "high" then
    { max_workers := min (cpu_count * 2) 16, batch_size := 8
      memory_buffer_mb := 2048, io_workers := 4 }
  else if performance_level = "medium" then
    { max_workers := min (cpu_count + 2) 8, batch_size := 4
      memory_buffer_mb := 1024, io_workers := 2 }
  else if performance_level = "low" then
    { max_workers := min cpu_count 4, batch_size := 2
      memory_buffer_mb := 512, io_workers := 1 }
  else if performance_level = "minimal" then
    { max_workers := 2, batch_size := 1
      memory_buffer_mb := 256, io_workers := 1 }
  else
    { max_workers := min cpu_count 4, batch_size := 2
      memory_buffer_mb := 512, io_workers := 1 }

/-- `DevicePerformanceDetector._get_default_profile` (lines 121-140): the
fixed fallback profile. -/
def get_default_profile : PerformanceProfile :=
  { cpu_cores_physical := 4
    cpu_cores_logical := 8
    cpu_usage_percent := 50
    memory_total_gb := 8
    memory_available_gb := 4
    memory_usage_percent := 50
    disk_free_gb := 10
    performance_level := "medium"
    concurrency_config :=
      { max_workers := 4, batch_size := 2, memory_buffer_mb := 512, io_workers := 1 }
    recommended_batch_size := 2
    max_workers := 4 }

/-- `DevicePerformanceDetector.get_performance_profile` (lines 42-75):
detector state is (physical cores, logical cores, total memory converted to
GB); a failing telemetry query (`none`) takes the except branch. -/
def get_performance_profile (cpu_count logical_cpu_count : ℕ)
    (total_memory_gb : ℚ) (telemetry : Option Telemetry) : PerformanceProfile :=
  match telemetry with
  | none => get_default_profile
  | some t =>
    let performance_level := calculate_performance_level cpu_count total_memory_gb
    let cc := get_concurrency_config cpu_count performance_level
    { cpu_cores_physical := cpu_count
      cpu_cores_logical := logical_cpu_count
      cpu_usage_percent := t.cpu_percent
      memory_total_gb := total_memory_gb
      memory_available_gb := t.memory_available_gb
      memory_usage_percent := t.memory_percent
      disk_free_gb := t.disk_free_gb
      performance_level := performance_level
      concurrency_config := cc
      recommended_batch_size := cc.batch_size
      max_workers := cc.max_workers }

end Detector

/-!
## The non-concurrent variant (`OptimizedFrameExtractor`,
basic_frame_extractor_optimized.py)

Transcriptions of `calculate_optimal_frame_count` (lines 258-314),
`calculate_frame_quality` (lines 316-340) and `detect_scene_change`
(lines 342-382) with the `FrameExtractorConfig` constants of that file
(lines 27-127), for comparison with the concurrent variant.
-/

namespace Basic

/-- Duration buckets of `OptimizedFrameExtractor.calculate_optimal_frame_count`
(lines 261-287). -/
def select_interval_strategy (duration : ℚ) : ℚ × String :=
  if duration ≤ 3 then (0.2, "ultra_short_dense")
  else if duration ≤ 10 then (0.5, "short_dense")
  else if duration ≤ 30 then (0.8, "medium_short_dense")
  else if duration ≤ 120 then (1, "medium_standard")
  else if duration ≤ 300 then (1.5, "long_dense")
  else if duration ≤ 600 then (2, "very_long")
  else if duration ≤ 1800 then (2.5, "thirty_minute")
  else if duration ≤ 3600 then (3, "one_hour")
  else (4, "super_long")

/-- Frame-rate correction factor (lines 292-298). -/
def fps_factor (fps : ℚ) : ℚ :=
  if fps < 15 then 0.8
  else if fps > 60 then 1.3
  else if fps > 30 then 1.15
  else 1

/-- `OptimizedFrameExtractor.calculate_optimal_frame_count` (lines 258-314). -/
def calculate_optimal_frame_count (duration fps : ℚ) (total_frames : ℤ) :
    Option Async.CalcResult :=
  let is := select_interval_strategy duration
  let optimal₁ : ℤ := max 5 (pyInt (duration / is.1))
  let optimal₂ : ℤ := pyInt ((optimal₁ : ℚ) * fps_factor fps)
  let max_allowed : ℤ := min total_frames (pyInt ((total_frames : ℚ) * 0.5))
  let optimal₃ : ℤ := min optimal₂ max_allowed
  if optimal₃ = 0 then none
  else some
    { optimal_frames := optimal₃
      frame_interval := max 1 (Int.fdiv total_frames optimal₃)
      real_time_interval := if 0 < optimal₃ then duration / (optimal₃ : ℚ) else is.1
      strategy := is.2 }

/-- `OptimizedFrameExtractor.calculate_frame_quality` (lines 316-340). -/
def calculate_frame_quality (sharpness brightness contrast : ℚ) : QualityMetrics :=
  { sharpness := sharpness
    brightness := brightness
    contrast := contrast
    quality_score :=
      sharpness * 0.5 + contrast * 0.3 + min (brightness / 128) 1 * 0.2 }

/-- `FrameExtractorConfig.SCENE_THRESHOLDS` (lines 80-109) with the
default-to-high lookup of lines 361-362. -/
def scene_thresholds (sensitivity : String) : SceneThresholds :=
  if sensitivity = "low" then
    { pixel_threshold := 40, histogram_threshold := 1000
      structural_threshold := 15, edge_threshold := 25, color_threshold := 800 }
  else if sensitivity = "medium" then
    { pixel_threshold := 25, histogram_threshold := 500
      structural_threshold := 10, edge_threshold := 15, color_threshold := 400 }
  else if sensitivity = "high" then
    { pixel_threshold := 15, histogram_threshold := 200
      structural_threshold := 8, edge_threshold := 10, color_threshold := 200 }
  else if sensitivity = "ultra" then
    { pixel_threshold := 10, histogram_threshold := 100
      structural_threshold := 5, edge_threshold := 8, color_threshold := 100 }
  else
    { pixel_threshold := 15, histogram_threshold := 200
      structural_threshold := 8, edge_threshold := 10, color_threshold := 200 }

/-- `FrameExtractorConfig.INTENSITY_THRESHOLDS` (lines 112-117) with the
default of line 529. -/
def intensity_thresholds (sensitivity : String) : ℚ :=
  if sensitivity = "low" then 15
  else if sensitivity = "medium" then 25
  else if sensitivity = "high" then 40
  else if sensitivity = "ultra" then 60
  else 40

/-- `OptimizedFrameExtractor.detect_scene_change` (lines 342-382), given the
two scalar differences. -/
def detect_scene_change (pixel_diff hist_diff : ℚ) (sensitivity : String) :
    SceneChangeResult :=
  let thresholds := scene_thresholds sensitivity
  let pixel_change : Bool := pixel_diff > thresholds.pixel_threshold
  let hist_change : Bool := hist_diff > thresholds.histogram_threshold
  { is_scene_change := pixel_change || hist_change
    change_intensity :=
      pixel_diff / thresholds.pixel_threshold * 0.6 +
      hist_diff / thresholds.histogram_threshold * 0.4
    pixel_difference := pixel_diff
    histogram_difference := hist_diff }

end Basic

/-- Builder for concrete frame records used to instantiate the orchestrator
theorems on explicit inputs. -/
def sampleRecord (p f sf : String) (q : ℚ) : FrameRecord :=
  { path := p
    filename := f
    frame_number := 0
    timestamp := 0
    extracted_index := 0
    quality := { sharpness := q, brightness := 0, contrast := 0, quality_score := q }
    source_type := "video"
    source_file := sf }

instance : IsTotal FrameRecord Orchestrator.qualityGE :=
  ⟨fun a b => le_total b.quality.quality_score a.quality.quality_score⟩

instance : IsTrans FrameRecord Orchestrator.qualityGE :=
  ⟨fun _ _ _ hab hbc => le_trans hbc hab⟩

/-!
## Helper lemmas
-/

theorem pyInt_of_nonneg {q : ℚ} (h : 0 ≤ q) : pyInt q = ⌊q⌋ := if_pos h

theorem le_pyInt {n : ℤ} {q : ℚ} (hq : 0 ≤ q) (h : (n : ℚ) ≤ q) : n ≤ pyInt q := by
  rw [pyInt_of_nonneg hq]
  exact Int.le_floor.mpr h

theorem pyInt_le {n : ℤ} {q : ℚ} (hq : 0 ≤ q) (h : q ≤ (n : ℚ)) : pyInt q ≤ n := by
  rw [pyInt_of_nonneg hq]
  exact le_of_le_of_eq (Int.floor_mono h) (Int.floor_intCast n)

theorem fps_factor_ge (fps : ℚ) : (0.8 : ℚ) ≤ Async.fps_factor fps := by
  unfold Async.fps_factor
  split_ifs <;> norm_num

/-!
## Claim theorems
-/

/-- C1 counterexample: duration 1 s, fps 10, 10 total frames is a valid input
(duration > 0, fps > 0, total_frames > 0), yet the planner returns
optimal_frames = 4, violating the claimed lower bound 5: the fps < 15
correction multiplies the base count 5 by 0.8. -/
theorem sampling_lower_bound_counterexample :
    (0 : ℚ) < 1 ∧ (0 : ℚ) < 10 ∧ (0 : ℤ) < 10 ∧
    Async.calculate_optimal_frame_count 1 10 10 =
      some { optimal_frames := 4, frame_interval := 2, real_time_interval := 1/4,
             strategy := "ultra_short_dense" } ∧
    ¬ (5 : ℤ) ≤ 4 := by
  refine ⟨by norm_num, by norm_num, by norm_num, ?_, by norm_num⟩
  norm_num [Async.calculate_optimal_frame_count, Async.select_interval_strategy,
    Async.fps_factor, pyInt, Int.fdiv]

/-- C1 (amended): for every valid input with duration > 0, fps > 0 and
total_frames ≥ 2, `calculate_optimal_frame_count` returns a result whose
optimal_frames satisfies 1 ≤ optimal_frames ≤ total_frames × 0.5 and whose
frame_interval is ≥ 1.  (The lower bound 5 of the original claim fails: the
fps correction factor 0.8 and the total_frames × 0.5 cap can push the count
below 5; and at total_frames = 1 the function raises instead of returning.) -/
theorem sampling_plan_bounds (duration fps : ℚ) (total_frames : ℤ)
    (hd : 0 < duration) (hf : 0 < fps) (htf : 2 ≤ total_frames) :
    ∃ r, Async.calculate_optimal_frame_count duration fps total_frames = some r ∧
      1 ≤ r.optimal_frames ∧
      (r.optimal_frames : ℚ) ≤ (total_frames : ℚ) * 0.5 ∧
      1 ≤ r.frame_interval := by
  simp only [Async.calculate_optimal_frame_count]
  have h₁ : (5 : ℤ) ≤ max 5 (pyInt (duration / (Async.select_interval_strategy duration).1)) :=
    le_max_left _ _
  set o₁ : ℤ := max 5 (pyInt (duration / (Async.select_interval_strategy duration).1)) with ho₁
  have hff := fps_factor_ge fps
  have ho₁q : (5 : ℚ) ≤ (o₁ : ℚ) := by exact_mod_cast h₁
  have hprod : (4 : ℚ) ≤ (o₁ : ℚ) * Async.fps_factor fps := by
    calc (4 : ℚ) = 5 * 0.8 := by norm_num
    _ ≤ (o₁ : ℚ) * Async.fps_factor fps :=
        mul_le_mul ho₁q hff (by norm_num) (le_trans (by norm_num) ho₁q)
  have hprod0 : (0 : ℚ) ≤ (o₁ : ℚ) * Async.fps_factor fps := le_trans (by norm_num) hprod
  have h₂ : (4 : ℤ) ≤ pyInt ((o₁ : ℚ) * Async.fps_factor fps) :=
    le_pyInt hprod0 (by exact_mod_cast hprod)
  set o₂ : ℤ := pyInt ((o₁ : ℚ) * Async.fps_factor fps) with ho₂
  have htfq : (2 : ℚ) ≤ (total_frames : ℚ) := by exact_mod_cast htf
  have htf0 : (0 : ℚ) ≤ (total_frames : ℚ) * 0.5 := by nlinarith
  have hm1 : (1 : ℤ) ≤ pyInt ((total_frames : ℚ) * 0.5) := le_pyInt htf0 (by push_cast; nlinarith)
  set ma : ℤ := min total_frames (pyInt ((total_frames : ℚ) * 0.5)) with hma
  have hma1 : (1 : ℤ) ≤ ma := le_min (le_trans (by norm_num) htf) hm1
  have ho₃ : (1 : ℤ) ≤ min o₂ ma := le_min (le_trans (by norm_num) h₂) hma1
  have hne : ¬ min o₂ ma = 0 := by omega
  rw [if_neg hne]
  refine ⟨_, rfl, ho₃, ?_, le_max_left _ _⟩
  have hmono : min o₂ ma ≤ pyInt ((total_frames : ℚ) * 0.5) :=
    le_trans (min_le_right _ _) (min_le_right _ _)
  have hfloor : ((pyInt ((total_frames : ℚ) * 0.5) : ℤ) : ℚ) ≤ (total_frames : ℚ) * 0.5 := by
    rw [pyInt_of_nonneg htf0]
    exact Int.floor_le _
  exact le_trans (by exact_mod_cast hmono) hfloor

/-- C1 witness: Scenario A of the spec — a 2-second, 30 fps, 60-frame clip is
a valid input for `sampling_plan_bounds`. -/
theorem sampling_plan_bounds_witness :
    (0 : ℚ) < 2 ∧ (0 : ℚ) < 30 ∧ (2 : ℤ) ≤ 60 ∧
    (∃ r, Async.calculate_optimal_frame_count 2 30 60 = some r ∧
      1 ≤ r.optimal_frames ∧
      (r.optimal_frames : ℚ) ≤ ((60 : ℤ) : ℚ) * 0.5 ∧
      1 ≤ r.frame_interval) :=
  ⟨by decide, by decide, by decide,
    sampling_plan_bounds 2 30 60 (by decide) (by decide) (by decide)⟩

/-- C2: the claim that `calculate_optimal_frame_count` never divides by zero
on valid input states the documented intent, but the code is wrong at
total_frames = 1: max_allowed = min(1, int(0.5)) = 0 forces
optimal_frames = 0 and `total_frames // optimal_frames` raises
ZeroDivisionError (modelled as `none`) — even though the very next source
line guards `optimal_frames > 0` for real_time_interval. -/
theorem sampling_div_by_zero_at_one_frame :
    (0 : ℚ) < 1/25 ∧ (0 : ℚ) < 25 ∧ (0 : ℤ) < 1 ∧
    Async.calculate_optimal_frame_count (1/25) 25 1 = none := by
  refine ⟨by norm_num, by norm_num, by norm_num, ?_⟩
  norm_num [Async.calculate_optimal_frame_count, Async.select_interval_strategy,
    Async.fps_factor, pyInt]

/-- C5 counterexample: the fallback profile does label itself "medium", but
its concurrency config is the constant (4, 2, 512, 1), which is not the
medium tier row min(cores+2, 8) = 6, 4, 1024, 2 computed for its own
4 physical cores — its batch_size alone (2 versus 4) refutes the claim. -/
theorem default_profile_counterexample :
    Detector.get_performance_profile 4 8 8 none = Detector.get_default_profile ∧
    Detector.get_default_profile.performance_level = "medium" ∧
    Detector.get_concurrency_config 4 "medium" =
      { max_workers := 6, batch_size := 4, memory_buffer_mb := 1024, io_workers := 2 } ∧
    Detector.get_default_profile.concurrency_config ≠
      Detector.get_concurrency_config 4 "medium" := by
  refine ⟨rfl, rfl, by decide, ?_⟩
  decide

/-- C5 (amended): whenever the host-telemetry query raises,
`get_performance_profile` returns (does not propagate the exception) the
fixed default profile; that profile's performance_level is "medium", but its
concurrency config is the hard-coded (max_workers 4, batch_size 2,
memory_buffer_mb 512, io_workers 1) — the low tier values for its stated
specification, not the medium row of the tier table. -/
theorem default_profile_on_failure (cpu_count logical_cpu_count : ℕ)
    (total_memory_gb : ℚ) :
    Detector.get_performance_profile cpu_count logical_cpu_count total_memory_gb none =
      Detector.get_default_profile ∧
    Detector.get_default_profile.performance_level = "medium" ∧
    Detector.get_default_profile.concurrency_config =
      { max_workers := 4, batch_size := 2, memory_buffer_mb := 512, io_workers := 1 } ∧
    Detector.get_default_profile.concurrency_config =
      Detector.get_concurrency_config 4 (Detector.calculate_performance_level 2 4) :=
  ⟨rfl, rfl, rfl, by decide⟩

/-- C6: for every pair of scalar frame differences and every sensitivity key
of the threshold table, `detect_scene_change` flags a scene change exactly
when pixel_diff exceeds the pixel threshold or hist_diff exceeds the
histogram threshold, and reports change_intensity
0.6·(pixel_diff/pixel_threshold) + 0.4·(hist_diff/histogram_threshold).
The witness instantiates Scenario C (sensitivity "high", pixel_diff 20
against threshold 15, histogram below threshold). -/
theorem scene_change_decision_formula (pixel_diff hist_diff : ℚ) (s : String)
    (hs : s ∈ ["low", "medium", "high", "ultra"]) :
    ((Async.detect_scene_change pixel_diff hist_diff s).is_scene_change = true ↔
      pixel_diff > (Async.scene_thresholds s).pixel_threshold ∨
      hist_diff > (Async.scene_thresholds s).histogram_threshold) ∧
    (Async.detect_scene_change pixel_diff hist_diff s).change_intensity =
      0.6 * (pixel_diff / (Async.scene_thresholds s).pixel_threshold) +
      0.4 * (hist_diff / (Async.scene_thresholds s).histogram_threshold) := by
  constructor
  · simp [Async.detect_scene_change, Bool.or_eq_true, decide_eq_true_eq]
  · simp only [Async.detect_scene_change]
    ring

/-- C6 witness: Scenario C, sensitivity "high", pixel_diff 20, hist_diff 0 —
the pixel branch fires. -/
theorem scene_change_decision_formula_witness :
    ("high" ∈ ["low", "medium", "high", "ultra"]) ∧
    (((Async.detect_scene_change 20 0 "high").is_scene_change = true ↔
      (20 : ℚ) > (Async.scene_thresholds "high").pixel_threshold ∨
      (0 : ℚ) > (Async.scene_thresholds "high").histogram_threshold) ∧
    (Async.detect_scene_change 20 0 "high").change_intensity =
      0.6 * ((20 : ℚ) / (Async.scene_thresholds "high").pixel_threshold) +
      0.4 * ((0 : ℚ) / (Async.scene_thresholds "high").histogram_threshold)) ∧
    (Async.detect_scene_change 20 0 "high").is_scene_change = true :=
  ⟨by decide, scene_change_decision_formula 20 0 "high" (by decide), by decide⟩

/-- C7: `calculate_frame_quality` combines the pixel statistics as
quality_score = 0.5·sharpness + 0.3·contrast + 0.2·min(brightness/128, 1),
and the score is monotone in sharpness and in contrast with the other
metrics held fixed. -/
theorem quality_score_formula_monotone (s b c s₂ c₂ : ℚ)
    (hs : s ≤ s₂) (hc : c ≤ c₂) :
    (Async.calculate_frame_quality s b c).quality_score =
      0.5 * s + 0.3 * c + 0.2 * min (b / 128) 1 ∧
    (Async.calculate_frame_quality s b c).quality_score ≤
      (Async.calculate_frame_quality s₂ b c).quality_score ∧
    (Async.calculate_frame_quality s b c).quality_score ≤
      (Async.calculate_frame_quality s b c₂).quality_score := by
  refine ⟨?_, ?_, ?_⟩ <;> simp only [Async.calculate_frame_quality]
  · norm_num
    ring
  · nlinarith
  · nlinarith

/-- C7 witness: sharpness 1 ≤ 2 and contrast 1 ≤ 2 at brightness 0. -/
theorem quality_score_formula_monotone_witness :
    (1 : ℚ) ≤ 2 ∧ (1 : ℚ) ≤ 2 ∧
    ((Async.calculate_frame_quality 1 0 1).quality_score =
      0.5 * 1 + 0.3 * 1 + 0.2 * min ((0 : ℚ) / 128) 1 ∧
    (Async.calculate_frame_quality 1 0 1).quality_score ≤
      (Async.calculate_frame_quality 2 0 1).quality_score ∧
    (Async.calculate_frame_quality 1 0 1).quality_score ≤
      (Async.calculate_frame_quality 1 0 2).quality_score) :=
  ⟨by decide, by decide,
    quality_score_formula_monotone 1 0 1 2 2 (by decide) (by decide)⟩

/-- C9: the non-concurrent variant (`OptimizedFrameExtractor`) and the
concurrent variant (`AsyncFrameExtractor`) implement the same sampling,
quality-scoring and scene-change algorithms: the three transcribed functions
and the threshold table agree extensionally. -/
theorem basic_async_algorithms_agree :
    (∀ (duration fps : ℚ) (total_frames : ℤ),
      Basic.calculate_optimal_frame_count duration fps total_frames =
        Async.calculate_optimal_frame_count duration fps total_frames) ∧
    (∀ sharpness brightness contrast : ℚ,
      Basic.calculate_frame_quality sharpness brightness contrast =
        Async.calculate_frame_quality sharpness brightness contrast) ∧
    (∀ (pixel_diff hist_diff : ℚ) (sensitivity : String),
      Basic.detect_scene_change pixel_diff hist_diff sensitivity =
        Async.detect_scene_change pixel_diff hist_diff sensitivity) ∧
    (∀ sensitivity : String,
      Basic.scene_thresholds sensitivity = Async.scene_thresholds sensitivity) ∧
    (∀ sensitivity : String,
      Basic.intensity_thresholds sensitivity = Async.intensity_thresholds sensitivity) :=
  ⟨fun _ _ _ => rfl, fun _ _ _ => rfl, fun _ _ _ => rfl, fun _ => rfl, fun _ => rfl⟩

/-- C10: for every sensitivity string outside the four table keys,
`detect_scene_change` behaves exactly as for "high" (the lookup defaults to
the high tier), and the retention decision compares change_intensity against
the default 40 — the high tier value — so `_should_keep_frame` behaves as
if sensitivity were "high". -/
theorem unknown_sensitivity_defaults_to_high (s : String)
    (hs : s ∉ ["low", "medium", "high", "ultra"]) :
    (∀ pixel_diff hist_diff : ℚ,
      Async.detect_scene_change pixel_diff hist_diff s =
        Async.detect_scene_change pixel_diff hist_diff "high") ∧
    Async.intensity_thresholds s = 40 ∧
    Async.intensity_thresholds "high" = 40 ∧
    (∀ (has_previous : Bool)
      (sharpness pixel_diff hist_diff sharpness_threshold similarity_threshold : ℚ),
      Async.should_keep_frame has_previous sharpness pixel_diff hist_diff
          sharpness_threshold similarity_threshold s =
        Async.should_keep_frame has_previous sharpness pixel_diff hist_diff
          sharpness_threshold similarity_threshold "high") := by
  simp only [List.mem_cons, List.mem_singleton, not_or] at hs
  obtain ⟨h1, h2, h3, h4⟩ := hs
  have hst : Async.scene_thresholds s = Async.scene_thresholds "high" := by
    simp [Async.scene_thresholds, h1, h2, h3, h4]
  have hit : Async.intensity_thresholds s = Async.intensity_thresholds "high" := by
    simp [Async.intensity_thresholds, h1, h2, h3, h4]
  refine ⟨?_, ?_, ?_, ?_⟩
  · intro pd hd
    simp only [Async.detect_scene_change, hst]
  · rw [hit]
    rfl
  · rfl
  · intro hp sh pd hd st sim
    simp only [Async.should_keep_frame, Async.detect_scene_change, hst, hit]

/-- When every record's current path differs from every target path of the
pass and all paths are distinct and exist, each renaming step fires and the
pass rewrites position k to index i₀ + k. -/
theorem renameFramesAux_eq_expected (dir : String) (i₀ : ℕ) (l : List FrameRecord)
    (fs : List String)
    (h1 : l.Pairwise (fun a b => a.path ≠ b.path))
    (h2 : ∀ r ∈ l, r.path ∈ fs)
    (h3 : ∀ r ∈ l, ∀ j, i₀ ≤ j → j < i₀ + l.length → ∀ r₂ ∈ l,
      r.path ≠ Orchestrator.targetPath dir j r₂) :
    (Orchestrator.renameFramesAux dir i₀ l fs).1 =
      Orchestrator.expectedRename dir i₀ l := by
  induction l generalizing i₀ fs with
  | nil => rfl
  | cons r rs ih =>
    have hmemr : r ∈ r :: rs := List.mem_cons_self r rs
    have hner : r.path ≠ Orchestrator.targetPath dir i₀ r :=
      h3 r hmemr i₀ le_rfl (by simp) r hmemr
    have hinr : r.path ∈ fs := h2 r hmemr
    have hstep : Orchestrator.renameStep dir i₀ r fs =
        ({ r with path := Orchestrator.targetPath dir i₀ r,
                  filename := Orchestrator.targetName i₀ r,
                  extracted_index := (i₀ : ℤ) },
         Orchestrator.targetPath dir i₀ r ::
           Orchestrator.removePath
             (Orchestrator.removePath fs (Orchestrator.targetPath dir i₀ r)) r.path) := by
      unfold Orchestrator.renameStep
      rw [if_pos ⟨hner, hinr⟩]
      rfl
    have hpw := List.pairwise_cons.mp h1
    have h2' : ∀ x ∈ rs, x.path ∈
        Orchestrator.targetPath dir i₀ r ::
          Orchestrator.removePath
            (Orchestrator.removePath fs (Orchestrator.targetPath dir i₀ r)) r.path := by
      intro x hx
      have hxfs : x.path ∈ fs := h2 x (List.mem_cons_of_mem _ hx)
      have hxr : x.path ≠ r.path := (hpw.1 x hx).symm
      have hxt : x.path ≠ Orchestrator.targetPath dir i₀ r :=
        h3 x (List.mem_cons_of_mem _ hx) i₀ le_rfl (by simp) r hmemr
      refine List.mem_cons_of_mem _ ?_
      unfold Orchestrator.removePath
      exact List.mem_filter.mpr
        ⟨List.mem_filter.mpr ⟨hxfs, bne_iff_ne.mpr hxt⟩, bne_iff_ne.mpr hxr⟩
    have h3' : ∀ x ∈ rs, ∀ j, i₀ + 1 ≤ j → j < (i₀ + 1) + rs.length →
        ∀ y ∈ rs, x.path ≠ Orchestrator.targetPath dir j y := by
      intro x hx j hj1 hj2 y hy
      refine h3 x (List.mem_cons_of_mem _ hx) j (le_trans (Nat.le_succ _) hj1)
        ?_ y (List.mem_cons_of_mem _ hy)
      simp only [List.length_cons]
      omega
    calc (Orchestrator.renameFramesAux dir i₀ (r :: rs) fs).1
        = (Orchestrator.renameStep dir i₀ r fs).1 ::
          (Orchestrator.renameFramesAux dir (i₀ + 1) rs
            (Orchestrator.renameStep dir i₀ r fs).2).1 := rfl
      _ = { r with path := Orchestrator.targetPath dir i₀ r,
                   filename := Orchestrator.targetName i₀ r,
                   extracted_index := (i₀ : ℤ) } ::
          Orchestrator.expectedRename dir (i₀ + 1) rs := by
            rw [hstep]
            exact congrArg _ (ih (i₀ + 1) _ hpw.2 h2' h3')
      _ = Orchestrator.expectedRename dir i₀ (r :: rs) := rfl

/-- When every record's path already equals its positional target path, every
renaming step is skipped and the pass changes nothing. -/
theorem renameFramesAux_skip (dir : String) (i₀ : ℕ) (l : List FrameRecord)
    (fs : List String)
    (h : ∀ (i : ℕ) (hi : i < l.length),
      (l.get ⟨i, hi⟩).path = Orchestrator.targetPath dir (i₀ + i) (l.get ⟨i, hi⟩)) :
    Orchestrator.renameFramesAux dir i₀ l fs = (l, fs) := by
  induction l generalizing i₀ with
  | nil => rfl
  | cons r rs ih =>
    have h0 : r.path = Orchestrator.targetPath dir i₀ r := by
      have := h 0 (by simp)
      simpa using this
    have hstep : Orchestrator.renameStep dir i₀ r fs = (r, fs) := by
      unfold Orchestrator.renameStep
      rw [if_neg]
      intro hc
      exact hc.1 h0
    have hrest : Orchestrator.renameFramesAux dir (i₀ + 1) rs fs = (rs, fs) := by
      refine ih (i₀ + 1) ?_
      intro i hi
      have hi' : i + 1 < (r :: rs).length := by
        simp only [List.length_cons]
        omega
      have := h (i + 1) hi'
      have hget : (r :: rs).get ⟨i + 1, hi'⟩ = rs.get ⟨i, hi⟩ := rfl
      rw [hget] at this
      rw [this]
      have : i₀ + (i + 1) = i₀ + 1 + i := by omega
      rw [this]
    calc Orchestrator.renameFramesAux dir i₀ (r :: rs) fs
        = ((Orchestrator.renameStep dir i₀ r fs).1 ::
            (Orchestrator.renameFramesAux dir (i₀ + 1) rs
              (Orchestrator.renameStep dir i₀ r fs).2).1,
           (Orchestrator.renameFramesAux dir (i₀ + 1) rs
              (Orchestrator.renameStep dir i₀ r fs).2).2) := rfl
      _ = (r :: rs, fs) := by rw [hstep, hrest]

/-- C4: when the retained records exceed max_base_frames, the global cap pass
keeps exactly the top max_base_frames of the list sorted by quality_score
descending: the kept list has length max_base_frames, kept and dropped
records together permute the input, every dropped record scores no higher
than any kept one, and the kept list is precisely the sorted prefix. -/
theorem global_cap_keeps_top_quality (frames : List FrameRecord) (m : ℕ)
    (fs : List String) (h : frames.length > m) :
    ∃ dropped : List FrameRecord,
      ((Orchestrator.enforceGlobalCap frames m fs).1).length = m ∧
      List.Perm ((Orchestrator.enforceGlobalCap frames m fs).1 ++ dropped) frames ∧
      (∀ x ∈ (Orchestrator.enforceGlobalCap frames m fs).1, ∀ y ∈ dropped,
        y.quality.quality_score ≤ x.quality.quality_score) ∧
      (Orchestrator.enforceGlobalCap frames m fs).1 =
        (Orchestrator.sortByQualityDesc frames).take m := by
  have henf : (Orchestrator.enforceGlobalCap frames m fs).1 =
      (Orchestrator.sortByQualityDesc frames).take m := by
    unfold Orchestrator.enforceGlobalCap
    rw [if_pos h]
  have hperm : List.Perm (Orchestrator.sortByQualityDesc frames) frames :=
    List.perm_insertionSort _ _
  have hsorted : List.Sorted Orchestrator.qualityGE (Orchestrator.sortByQualityDesc frames) :=
    List.sorted_insertionSort _ _
  refine ⟨(Orchestrator.sortByQualityDesc frames).drop m, ?_, ?_, ?_, henf⟩
  · rw [henf, List.length_take]
    have := hperm.length_eq
    omega
  · rw [henf, List.take_append_drop]
    exact hperm
  · intro x hx y hy
    rw [henf] at hx
    have hpair : List.Pairwise Orchestrator.qualityGE
        ((Orchestrator.sortByQualityDesc frames).take m ++
         (Orchestrator.sortByQualityDesc frames).drop m) := by
      rw [List.take_append_drop]
      exact hsorted
    exact (List.pairwise_append.mp hpair).2.2 x hx y hy

/-- C4 witness: three records with scores 1, 3, 5 and cap 2. -/
theorem global_cap_keeps_top_quality_witness :
    ([sampleRecord "out/pA" "fA" "a.mp4" 1, sampleRecord "out/pB" "fB" "b.mp4" 3,
      sampleRecord "out/pC" "fC" "c.mp4" 5].length > 2) ∧
    (∃ dropped : List FrameRecord,
      ((Orchestrator.enforceGlobalCap
          [sampleRecord "out/pA" "fA" "a.mp4" 1, sampleRecord "out/pB" "fB" "b.mp4" 3,
           sampleRecord "out/pC" "fC" "c.mp4" 5] 2 []).1).length = 2 ∧
      List.Perm ((Orchestrator.enforceGlobalCap
          [sampleRecord "out/pA" "fA" "a.mp4" 1, sampleRecord "out/pB" "fB" "b.mp4" 3,
           sampleRecord "out/pC" "fC" "c.mp4" 5] 2 []).1 ++ dropped)
        [sampleRecord "out/pA" "fA" "a.mp4" 1, sampleRecord "out/pB" "fB" "b.mp4" 3,
         sampleRecord "out/pC" "fC" "c.mp4" 5] ∧
      (∀ x ∈ (Orchestrator.enforceGlobalCap
          [sampleRecord "out/pA" "fA" "a.mp4" 1, sampleRecord "out/pB" "fB" "b.mp4" 3,
           sampleRecord "out/pC" "fC" "c.mp4" 5] 2 []).1, ∀ y ∈ dropped,
        y.quality.quality_score ≤ x.quality.quality_score) ∧
      (Orchestrator.enforceGlobalCap
          [sampleRecord "out/pA" "fA" "a.mp4" 1, sampleRecord "out/pB" "fB" "b.mp4" 3,
           sampleRecord "out/pC" "fC" "c.mp4" 5] 2 []).1 =
        (Orchestrator.sortByQualityDesc
          [sampleRecord "out/pA" "fA" "a.mp4" 1, sampleRecord "out/pB" "fB" "b.mp4" 3,
           sampleRecord "out/pC" "fC" "c.mp4" 5]).take 2) :=
  ⟨by decide,
    global_cap_keeps_top_quality
      [sampleRecord "out/pA" "fA" "a.mp4" 1, sampleRecord "out/pB" "fB" "b.mp4" 3,
       sampleRecord "out/pC" "fC" "c.mp4" 5] 2 [] (by decide)⟩

/-- C3 counterexample: records with scores 1, 3, 5 are appended in that
order; with cap 2 the culling step sorts the list quality-descending in
place, so the renaming pass indexes the survivors quality-first — the record
from "c.mp4" (appended after "b.mp4") receives index 0 and the one from
"b.mp4" index 1, refuting the claimed original-append-order re-indexing
after culling. -/
theorem reindex_order_counterexample :
    (Orchestrator.finalize_frames "out"
        [sampleRecord "out/pA" "fA" "a.mp4" 1, sampleRecord "out/pB" "fB" "b.mp4" 3,
         sampleRecord "out/pC" "fC" "c.mp4" 5] 2
        ["out/pA", "out/pB", "out/pC"]).1.map
      (fun r => (r.source_file, r.extracted_index, r.filename)) =
    [("c.mp4", 0, "frame_0000_video_c.jpg"), ("b.mp4", 1, "frame_0001_video_b.jpg")] := by
  decide

/-- C3 (amended): the final re-indexing pass assigns contiguous indices and
filenames frame_iiii_sourcetype_sourcebasename.jpg in the order of the
cumulative list at renaming time, rewriting path, filename and
extracted_index of each record whose file exists under a fresh path — but
that order is the original append order only when no culling ran: the
global-cap culling sorts the list in place by quality descending and the
renaming then follows the sorted order, not the append order. -/
theorem reindex_order_after_cull (dir : String) (l : List FrameRecord)
    (fs : List String)
    (h1 : l.Pairwise (fun a b => a.path ≠ b.path))
    (h2 : ∀ r ∈ l, r.path ∈ fs)
    (h3 : ∀ r ∈ l, ∀ j, j < l.length → ∀ r₂ ∈ l,
      r.path ≠ Orchestrator.targetPath dir j r₂) :
    (∀ (frames : List FrameRecord) (m : ℕ) (fs₀ : List String),
      (Orchestrator.enforceGlobalCap frames m fs₀).1 =
        if frames.length > m then (Orchestrator.sortByQualityDesc frames).take m
        else frames) ∧
    (Orchestrator.renameFramesAux dir 0 l fs).1 =
      Orchestrator.expectedRename dir 0 l := by
  constructor
  · intro frames m fs₀
    unfold Orchestrator.enforceGlobalCap
    split <;> rfl
  · refine renameFramesAux_eq_expected dir 0 l fs h1 h2 ?_
    intro r hr j _ hj r₂ hr₂
    exact h3 r hr j (by omega) r₂ hr₂

/-- C3 witness: two records with distinct existing paths, none clashing with
a target name. -/
theorem reindex_order_after_cull_witness :
    ([sampleRecord "out/pB" "fB" "b.mp4" 3,
      sampleRecord "out/pC" "fC" "c.mp4" 5].Pairwise (fun a b => a.path ≠ b.path)) ∧
    (∀ r ∈ [sampleRecord "out/pB" "fB" "b.mp4" 3,
      sampleRecord "out/pC" "fC" "c.mp4" 5], r.path ∈ ["out/pB", "out/pC"]) ∧
    (∀ r ∈ [sampleRecord "out/pB" "fB" "b.mp4" 3,
      sampleRecord "out/pC" "fC" "c.mp4" 5],
      ∀ j, j < [sampleRecord "out/pB" "fB" "b.mp4" 3,
        sampleRecord "out/pC" "fC" "c.mp4" 5].length →
      ∀ r₂ ∈ [sampleRecord "out/pB" "fB" "b.mp4" 3,
        sampleRecord "out/pC" "fC" "c.mp4" 5],
        r.path ≠ Orchestrator.targetPath "out" j r₂) ∧
    ((∀ (frames : List FrameRecord) (m : ℕ) (fs₀ : List String),
      (Orchestrator.enforceGlobalCap frames m fs₀).1 =
        if frames.length > m then (Orchestrator.sortByQualityDesc frames).take m
        else frames) ∧
    (Orchestrator.renameFramesAux "out" 0
        [sampleRecord "out/pB" "fB" "b.mp4" 3,
         sampleRecord "out/pC" "fC" "c.mp4" 5] ["out/pB", "out/pC"]).1 =
      Orchestrator.expectedRename "out" 0
        [sampleRecord "out/pB" "fB" "b.mp4" 3,
         sampleRecord "out/pC" "fC" "c.mp4" 5]) :=
  ⟨by decide, by decide, by decide,
    reindex_order_after_cull "out"
      [sampleRecord "out/pB" "fB" "b.mp4" 3, sampleRecord "out/pC" "fC" "c.mp4" 5]
      ["out/pB", "out/pC"] (by decide) (by decide) (by decide)⟩

/-- C8: the renaming pass is idempotent — on a list whose records already
carry their positional filename, the matching path under the output
directory and the positional index, every step is skipped: no file is
renamed or deleted and every record is returned unchanged. -/
theorem rename_pass_idempotent (dir : String) (l : List FrameRecord)
    (fs : List String)
    (h : ∀ (i : ℕ) (hi : i < l.length),
      (l.get ⟨i, hi⟩).filename = Orchestrator.targetName i (l.get ⟨i, hi⟩) ∧
      (l.get ⟨i, hi⟩).path = dir ++ "/" ++ (l.get ⟨i, hi⟩).filename ∧
      (l.get ⟨i, hi⟩).extracted_index = (i : ℤ)) :
    Orchestrator.renameFramesAux dir 0 l fs = (l, fs) := by
  refine renameFramesAux_skip dir 0 l fs ?_
  intro i hi
  obtain ⟨hf, hp, _⟩ := h i hi
  rw [hp, hf]
  simp only [Nat.zero_add]
  rfl

/-- C8 witness: a single already-renamed record. -/
theorem rename_pass_idempotent_witness :
    (∀ (i : ℕ) (hi : i <
        [sampleRecord "out/frame_0000_video_a.jpg" "frame_0000_video_a.jpg" "a.mp4" 1].length),
      ([sampleRecord "out/frame_0000_video_a.jpg" "frame_0000_video_a.jpg"
          "a.mp4" 1].get ⟨i, hi⟩).filename =
        Orchestrator.targetName i
          ([sampleRecord "out/frame_0000_video_a.jpg" "frame_0000_video_a.jpg"
              "a.mp4" 1].get ⟨i, hi⟩) ∧
      ([sampleRecord "out/frame_0000_video_a.jpg" "frame_0000_video_a.jpg"
          "a.mp4" 1].get ⟨i, hi⟩).path =
        "out" ++ "/" ++
          ([sampleRecord "out/frame_0000_video_a.jpg" "frame_0000_video_a.jpg"
              "a.mp4" 1].get ⟨i, hi⟩).filename ∧
      ([sampleRecord "out/frame_0000_video_a.jpg" "frame_0000_video_a.jpg"
          "a.mp4" 1].get ⟨i, hi⟩).extracted_index = (i : ℤ)) ∧
    Orchestrator.renameFramesAux "out" 0
        [sampleRecord "out/frame_0000_video_a.jpg" "frame_0000_video_a.jpg" "a.mp4" 1]
        ["out/frame_0000_video_a.jpg"] =
      ([sampleRecord "out/frame_0000_video_a.jpg" "frame_0000_video_a.jpg" "a.mp4" 1],
       ["out/frame_0000_video_a.jpg"]) :=
  ⟨by decide,
    rename_pass_idempotent "out"
      [sampleRecord "out/frame_0000_video_a.jpg" "frame_0000_video_a.jpg" "a.mp4" 1]
      ["out/frame_0000_video_a.jpg"] (by decide)⟩

/-- C10 witness: the out-of-table key "default". -/
theorem unknown_sensitivity_defaults_to_high_witness :
    ("default" ∉ ["low", "medium", "high", "ultra"]) ∧
    ((∀ pixel_diff hist_diff : ℚ,
      Async.detect_scene_change pixel_diff hist_diff "default" =
        Async.detect_scene_change pixel_diff hist_diff "high") ∧
    Async.intensity_thresholds "default" = 40 ∧
    Async.intensity_thresholds "high" = 40 ∧
    (∀ (has_previous : Bool)
      (sharpness pixel_diff hist_diff sharpness_threshold similarity_threshold : ℚ),
      Async.should_keep_frame has_previous sharpness pixel_diff hist_diff
          sharpness_threshold similarity_threshold "default" =
        Async.should_keep_frame has_previous sharpness pixel_diff hist_diff
          sharpness_threshold similarity_threshold "high")) :=
  ⟨by decide, unknown_sensitivity_defaults_to_high "default" (by decide)⟩

end FrameWeavers
